import Mathlib

/-!
Verification of the MarkdownImageEmbedder core pipeline
(`src/markdown_image_embedder.py`): a shallow embedding of the quality
model, the reference scanner, the per-image embed pipeline and the
two-pass document rewriter, followed by theorems about the embedded
definitions.

Conventions of the embedding:
* Python `str` values become `String` (`List Char` internally); positions
  and lengths count code points, as Python's `re` module does.
* Python `bytes` become `List Nat` (each entry one byte).
* The external collaborators (filesystem, HTTP, PIL codec, the
  `mimetypes` database, SVG rasterization) are the fields of `Env`;
  the I/O calls the pipeline makes are recorded in a `List Effect` trace.
* Fallible Python code that returns `None` becomes `Option`.
-/

set_option maxRecDepth 4000

namespace MIE

/-- Python whitespace as `str.strip` / `\s` classify it (ASCII range). -/
def pyIsSpace (c : Char) : Bool :=
  c = ' ' || c = '\t' || c = '\n' || c = '\r' || c = '\x0b' || c = '\x0c'

/-- Left-and-right whitespace strip, Python `str.strip()`. -/
def pyStrip (s : String) : String :=
  ⟨((s.data.dropWhile pyIsSpace).reverse.dropWhile pyIsSpace).reverse⟩

/-- Trailing-whitespace strip, Python `str.rstrip()`, on a char list. -/
def rstripPy (cs : List Char) : List Char :=
  (cs.reverse.dropWhile pyIsSpace).reverse

/-- Does `cs` start with `pat` (Python `str.startswith`). -/
def startsL : List Char → List Char → Bool
  | _, [] => true
  | [], _ :: _ => false
  | c :: cs, p :: ps => c = p && startsL cs ps

/-- Does `cs` end with `pat` (Python `str.endswith`). -/
def endsL (cs pat : List Char) : Bool :=
  startsL cs.reverse pat.reverse

/-- Does `cs` contain `pat` as a contiguous substring (Python `in`). -/
def containsSub : List Char → List Char → Bool
  | [], pat => startsL [] pat
  | c :: rest, pat => startsL (c :: rest) pat || containsSub rest pat

/-- ASCII lowering of a char list, modelling Python `str.lower` on the
ASCII inputs the pipeline handles. -/
def toLowerL (cs : List Char) : List Char :=
  cs.map Char.toLower

/-- Python `url.startswith(("http://", "https://"))`. -/
def startsHttp (url : String) : Bool :=
  startsL url.data "http://".data || startsL url.data "https://".data

/-- One discovered image mention (the `ImageMatch` dataclass). -/
structure ImageMatch where
  original_text : String
  alt_text : String
  url : String
  position : Nat
  length : Nat
  ref_id : Option String := none
  style : String := "inline"
deriving Repr, DecidableEq

/-- The aggregate counters the rewriter mutates (the `stats` dict of
`process_markdown`).  `non_embedded_resources` models the Python `set`
as a duplicate-free list in insertion order. -/
structure Stats where
  total_image_size : Nat := 0
  total_compressed_size : Nat := 0
  total_output_size : Nat := 0
  images_processed : Nat := 0
  skipped_images : Nat := 0
  non_embedded_resources : List String := []
  change_bytes : Int := 0
  input_md_size : Nat := 0
  output_md_size : Nat := 0
deriving Repr, DecidableEq

/-- Python `stats["non_embedded_resources"].add(url)` (set insertion). -/
def addNonEmbedded (stats : Stats) (url : String) : Stats :=
  if url ∈ stats.non_embedded_resources then stats
  else { stats with non_embedded_resources := stats.non_embedded_resources ++ [url] }

/-- The configuration fields of `CommandLineOptions` the core pipeline
reads (the CLI-only fields are out of scope). -/
structure CommandLineOptions where
  yarle_mode : Bool := false
  base_path : String := ""
  quality_scale : Nat := 5
  max_file_size_mb : Nat := 10
  max_width : Option Nat := none
  max_height : Option Nat := none
deriving Repr, DecidableEq

/-- Python truthiness of an `Optional[int]`: `None` and `0` are falsy. -/
def optTruthy : Option Nat → Bool
  | none => false
  | some n => n != 0

/-- One I/O action of the pipeline, recorded in order of occurrence. -/
inductive Effect where
  | download (url : String)
  | readLocal (path : String)
  | encodeJpeg (quality : Nat)
deriving Repr, DecidableEq

/-- The external collaborators: filesystem, HTTP fetch, the PIL codec
(decode, resize, flatten and JPEG-encode at a given quality collapsed
into `pilEncode`, `none` for any codec exception), SVG rasterization and
the `mimetypes.guess_type` database. -/
structure Env where
  isFile : String → Bool
  readFile : String → Option (List Nat)
  download : String → Option (List Nat)
  rasterizeSvg : List Nat → Option (List Nat)
  pilEncode : List Nat → Nat → Option Nat → Option Nat → Option (List Nat)
  guessMime : String → Option String
  svgSupport : Bool

/-- Constant `MARKDOWN_IMAGE_OVERHEAD` (line 57). -/
def MARKDOWN_IMAGE_OVERHEAD : Nat := 100

/-- The fixed quality table of `calculate_jpeg_quality` (lines 453-461):
row = size band, column = quality scale 1..9. -/
def quality_table : List (List Nat) :=
  [[100, 100, 100, 100, 100, 100, 100, 100, 100],
   [30, 45, 60, 75, 90, 92, 94, 96, 98],
   [25, 37, 49, 60, 70, 77, 83, 89, 95],
   [20, 28, 36, 43, 50, 60, 70, 80, 90],
   [15, 22, 28, 34, 40, 52, 63, 74, 85],
   [12, 16, 19, 22, 25, 40, 53, 67, 80],
   [10, 12, 14, 16, 18, 33, 47, 61, 75]]

/-- `calculate_jpeg_quality` (lines 443-477): bucket the byte size into
seven bands by inclusive upper bounds and index the table with
`quality_scale - 1` (the caller guarantees `quality_scale ∈ [1, 9]`). -/
def calculate_jpeg_quality (file_size_bytes : Nat) (quality_scale : Nat) : Nat :=
  let row_index : Nat :=
    if file_size_bytes ≤ 1 * 1024 then 0
    else if file_size_bytes ≤ 5 * 1024 then 1
    else if file_size_bytes ≤ 20 * 1024 then 2
    else if file_size_bytes ≤ 50 * 1024 then 3
    else if file_size_bytes ≤ 100 * 1024 then 4
    else if file_size_bytes ≤ 200 * 1024 then 5
    else 6
  ((quality_table.getD row_index []).getD (quality_scale - 1) 0)

/-- Index of the last occurrence of `c` in the list, if any. -/
def lastIdxOf (c : Char) : List Char → Option Nat
  | [] => none
  | x :: xs =>
    match lastIdxOf c xs with
    | some i => some (i + 1)
    | none => if x = c then some 0 else none

/-- Extension part of `os.path.splitext` (posix rules): the suffix from
the last dot of the basename, empty when the basename has no dot or
consists of leading dots only. -/
def splitext_ext (p : String) : String :=
  let cs := p.data
  let filenameIndex : Nat :=
    match lastIdxOf '/' cs with
    | none => 0
    | some s => s + 1
  match lastIdxOf '.' cs with
  | none => ""
  | some dotIndex =>
    if filenameIndex ≤ dotIndex then
      if ((cs.drop filenameIndex).take (dotIndex - filenameIndex)).any (fun c => c != '.') then
        ⟨cs.drop dotIndex⟩
      else ""
    else ""

/-- `get_mime_type` (lines 400-423): extension table first, then the
`mimetypes.guess_type` collaborator guarded by an `image/` prefix check,
defaulting to `image/jpeg`. -/
def get_mime_type (guess : String → Option String) (url : String) : String :=
  let ext := splitext_ext url
  if ext = "" then "image/jpeg"
  else
    let e : String := ⟨toLowerL ext.data⟩
    if e = ".jpg" ∨ e = ".jpeg" then "image/jpeg"
    else if e = ".png" then "image/png"
    else if e = ".gif" then "image/gif"
    else if e = ".bmp" then "image/bmp"
    else if e = ".webp" then "image/webp"
    else if e = ".svg" then "image/svg+xml"
    else
      match guess url with
      | some mime_type =>
        if mime_type ≠ "" ∧ startsL mime_type.data "image/".data then mime_type
        else "image/jpeg"
      | none => "image/jpeg"

/-- `is_video_file` (lines 425-441): magic-byte sniffing for MPEG-PS,
Matroska/WebM, MP4/QuickTime `ftyp`, RIFF/AVI and FLV headers. -/
def is_video_file (data : List Nat) : Bool :=
  if data.length < 12 then false
  else if data.take 4 = [0x00, 0x00, 0x01, 0xBA] then true
  else if data.take 4 = [0x1A, 0x45, 0xDF, 0xA3] then true
  else if (data.drop 4).take 4 = [0x66, 0x74, 0x79, 0x70] then true
  else if data.take 4 = [0x52, 0x49, 0x46, 0x46] ∧ (data.drop 8).take 4 = [0x41, 0x56, 0x49, 0x20] then true
  else if data.take 3 = [0x46, 0x4C, 0x56] then true
  else false

/-- The base64 alphabet in order. -/
def b64chars : List Char :=
  "ABCDEFGHIJKLMNOPQRSTUVWXYZabcdefghijklmnopqrstuvwxyz0123456789+/".data

/-- One base64 output character. -/
def b64char (n : Nat) : Char :=
  b64chars.getD n 'A'

/-- Standard padded base64 of a byte list (`base64.b64encode`). -/
def b64encode : List Nat → List Char
  | [] => []
  | [a] =>
    let a := a % 256
    [b64char (a / 4), b64char (a % 4 * 16), '=', '=']
  | [a, b] =>
    let a := a % 256
    let b := b % 256
    [b64char (a / 4), b64char (a % 4 * 16 + b / 16), b64char (b % 16 * 4), '=']
  | a :: b :: c :: rest =>
    let a' := a % 256
    let b' := b % 256
    let c' := c % 256
    b64char (a' / 4) :: b64char (a' % 4 * 16 + b' / 16) ::
      b64char (b' % 16 * 4 + c' / 64) :: b64char (c' % 64) :: b64encode rest

/-- First position of a pipe not preceded by a backslash (`(?<!\\)\|`),
tracking the previous character. -/
def findUnescapedPipeAux : Option Char → List Char → Option Nat
  | prev, c :: rest =>
    if c = '|' ∧ prev ≠ some '\\' then some 0
    else (findUnescapedPipeAux (some c) rest).map (· + 1)
  | _, [] => none

/-- `split_on_unescaped_pipe` (lines 815-826): split at the first
unescaped pipe; the second component keeps the pipe, `none` if absent. -/
def split_on_unescaped_pipe (text : String) : String × Option String :=
  match findUnescapedPipeAux none text.data with
  | some i => (⟨text.data.take i⟩, some ⟨text.data.drop i⟩)
  | none => (text, none)

/-- Python `dimensions.replace('\\|', '|')`: left-to-right,
non-overlapping replacement of the two-character sequence. -/
def replaceEscapedPipe : List Char → List Char
  | '\\' :: '|' :: rest => '|' :: replaceEscapedPipe rest
  | c :: rest => c :: replaceEscapedPipe rest
  | [] => []

/-- Python `alt_text.replace('\\', '')`: drop every backslash. -/
def removeBackslashes (cs : List Char) : List Char :=
  cs.filter (fun c => c != '\\')

/-- `is_embedded_image` (lines 809-813). -/
def is_embedded_image (url : String) : Bool :=
  startsL url.data "data:image/".data || startsL url.data "data:image%2F".data

/-! The reference scanner (`find_image_links`, lines 576-661).  Each of
the four regexes of the source is deterministic (its character classes
exclude their closing delimiters), so each is embedded as a direct
matcher at a position; `scanAux` replays `re.finditer`: at each position
try the matcher, on success emit and continue after the match, otherwise
advance one character. -/

/-- Body of `!\[\[(?P<url>.*?)\]\]` after the opening `![[`: the shortest
newline-free prefix followed by `]]` (`.` does not cross lines). -/
def matchObsidianBody : List Char → Option (List Char)
  | ']' :: ']' :: _ => some []
  | '\n' :: _ => none
  | c :: rest => (matchObsidianBody rest).map (fun b => c :: b)
  | [] => none

/-- Obsidian-style match at the head of the list: total length and url. -/
def matchObsidianAt : List Char → Option (Nat × String)
  | '!' :: '[' :: '[' :: rest =>
    (matchObsidianBody rest).map (fun b => (3 + b.length + 2, ⟨b⟩))
  | _ => none

/-- Inline match `!\[(?P<alt>[^\]]*)\]\((?P<url>[^)\n]+)\)` at the head:
total length, alt text and raw url. -/
def matchInlineAt : List Char → Option (Nat × String × String)
  | '!' :: '[' :: rest =>
    let alt := rest.takeWhile (fun c => c != ']')
    match rest.drop alt.length with
    | ']' :: '(' :: rest2 =>
      let url := rest2.takeWhile (fun c => c != ')' && c != '\n')
      if url.isEmpty then none
      else
        match rest2.drop url.length with
        | ')' :: _ => some (2 + alt.length + 2 + url.length + 1, ⟨alt⟩, ⟨url⟩)
        | _ => none
    | _ => none
  | _ => none

/-- Reference-style match `!\[(?P<alt>[^\]]*)\]\[(?P<ref>[^\]]+)\]` at
the head: total length, alt text and reference label. -/
def matchRefImgAt : List Char → Option (Nat × String × String)
  | '!' :: '[' :: rest =>
    let alt := rest.takeWhile (fun c => c != ']')
    match rest.drop alt.length with
    | ']' :: '[' :: rest2 =>
      let ref := rest2.takeWhile (fun c => c != ']')
      if ref.isEmpty then none
      else
        match rest2.drop ref.length with
        | ']' :: _ => some (2 + alt.length + 2 + ref.length + 1, ⟨alt⟩, ⟨ref⟩)
        | _ => none
    | _ => none
  | _ => none

/-- Reference-definition match `^\[(?P<id>[^\]]+)\]:\s+(?P<url>\S+)` at
a line start: total length, label and target token. -/
def matchRefDefAt : List Char → Option (Nat × String × String)
  | '[' :: rest =>
    let idc := rest.takeWhile (fun c => c != ']')
    if idc.isEmpty then none
    else
      match rest.drop idc.length with
      | ']' :: ':' :: rest2 =>
        let ws := rest2.takeWhile pyIsSpace
        if ws.isEmpty then none
        else
          let tok := (rest2.drop ws.length).takeWhile (fun c => !(pyIsSpace c))
          if tok.isEmpty then none
          else some (1 + idc.length + 2 + ws.length + tok.length, ⟨idc⟩, ⟨tok⟩)
      | _ => none
  | _ => none

/-- `re.finditer` over the document: `(position, length, payload)` of
every non-overlapping match, scanning left to right.  A successful match
always consumes at least one character here (every pattern starts with a
literal), so each step shortens the text; the structural `fuel`
parameter is called with the text's length, which that consumption
keeps sufficient. -/
def scanAux (tryAt : List Char → Option (Nat × α)) :
    Nat → List Char → Nat → List (Nat × Nat × α)
  | 0, _, _ => []
  | _, [], _ => []
  | fuel + 1, c :: rest, pos =>
    match tryAt (c :: rest) with
    | some (len, a) => (pos, len, a) :: scanAux tryAt fuel (rest.drop (len - 1)) (pos + len)
    | none => scanAux tryAt fuel rest (pos + 1)

/-- `re.finditer` for the multiline reference-definition pattern: `^`
anchoring is replayed by a line-start flag (a definition's matched text
ends in a non-whitespace character, never a newline).  `fuel` as in
`scanAux`. -/
def scanDefsAux : Nat → List Char → Bool → List (String × String)
  | 0, _, _ => []
  | _, [], _ => []
  | fuel + 1, c :: rest, atLineStart =>
    if atLineStart then
      match matchRefDefAt (c :: rest) with
      | some (len, ref_id, ref_url) =>
        (ref_id, ref_url) :: scanDefsAux fuel (rest.drop (len - 1)) false
      | none => scanDefsAux fuel rest (c = '\n')
    else scanDefsAux fuel rest (c = '\n')

/-- Python dict lookup on an association list built by repeated
assignment: the latest binding for the key wins. -/
def dictGet (m : List (String × String)) (k : String) : Option String :=
  match m with
  | [] => none
  | (k', v) :: rest =>
    match dictGet rest k with
    | some v' => some v'
    | none => if k' = k then some v else none

/-- Substring `cs[pos : pos + len]` as a string (a regex `group(0)`). -/
def sliceStr (cs : List Char) (pos len : Nat) : String :=
  ⟨(cs.drop pos).take len⟩

/-- `find_image_links` (lines 576-661): obsidian matches, the
reference-definition map, inline matches (skipping data URLs),
reference-style matches resolved against the map (skipping unresolved
labels and data URLs), merged and stably sorted by position. -/
def find_image_links (markdown : String) : List ImageMatch :=
  let cs := markdown.data
  let obsidian : List ImageMatch :=
    (scanAux matchObsidianAt cs.length cs 0).map (fun t =>
      { original_text := sliceStr cs t.1 t.2.1
        alt_text := ""
        url := t.2.2
        position := t.1
        length := t.2.1
        ref_id := none
        style := "obsidian" })
  let ref_defs : List (String × String) :=
    (scanDefsAux cs.length cs true).filterMap (fun p =>
      if p.1 ≠ "" ∧ pyStrip p.2 ≠ "" then some (p.1, pyStrip p.2) else none)
  let inline : List ImageMatch :=
    (scanAux matchInlineAt cs.length cs 0).filterMap (fun t =>
      let url := pyStrip t.2.2.2
      if startsL url.data "data:image".data then none
      else some
        { original_text := sliceStr cs t.1 t.2.1
          alt_text := t.2.2.1
          url := url
          position := t.1
          length := t.2.1
          ref_id := none
          style := "inline" })
  let reference : List ImageMatch :=
    (scanAux matchRefImgAt cs.length cs 0).filterMap (fun t =>
      match dictGet ref_defs t.2.2.2 with
      | none => none
      | some u0 =>
        if u0 = "" then none
        else
          let url := pyStrip u0
          if startsL url.data "data:image".data then none
          else some
            { original_text := sliceStr cs t.1 t.2.1
              alt_text := t.2.2.1
              url := url
              position := t.1
              length := t.2.1
              ref_id := some t.2.2.2
              style := "reference" })
  List.insertionSort (fun a b => a.position ≤ b.position) (obsidian ++ inline ++ reference)

/-! The source resolver (`resolve_file_path`, lines 780-807) and its
string helpers. -/

/-- Hex digit value, as `urllib.parse.unquote` reads `%XX` escapes. -/
def hexVal (c : Char) : Option Nat :=
  if '0' ≤ c ∧ c ≤ '9' then some (c.toNat - '0'.toNat)
  else if 'a' ≤ c ∧ c ≤ 'f' then some (c.toNat - 'a'.toNat + 10)
  else if 'A' ≤ c ∧ c ≤ 'F' then some (c.toNat - 'A'.toNat + 10)
  else none

/-- Percent-decoding as `urllib.parse.unquote` performs it on single-byte
escapes (multi-byte UTF-8 sequences do not occur in the paths the
pipeline handles); an invalid escape is kept verbatim. -/
def urlUnquote : List Char → List Char
  | '%' :: h1 :: h2 :: rest =>
    match hexVal h1, hexVal h2 with
    | some a, some b => Char.ofNat (a * 16 + b) :: urlUnquote rest
    | _, _ => '%' :: urlUnquote (h1 :: h2 :: rest)
  | c :: rest => c :: urlUnquote rest
  | [] => []

/-- The characters `path.rstrip('/\\"\' \t\r\n')` removes. -/
def stripTrailSet : List Char := ['/', '\\', '"', '\'', ' ', '\t', '\r', '\n']

/-- Python `s.rstrip('/\\"\' \t\r\n')`. -/
def rstripSet (s : String) : String :=
  ⟨(s.data.reverse.dropWhile (fun c => c ∈ stripTrailSet)).reverse⟩

/-- `os.path.join` for two components, posix rules. -/
def pathJoin (a b : String) : String :=
  if startsL b.data "/".data then b
  else if a = "" then b
  else if endsL a.data "/".data then ⟨a.data ++ b.data⟩
  else ⟨a.data ++ '/' :: b.data⟩

/-- `resolve_file_path` (lines 780-807): strip trailing separators and
quotes, percent-decode, try the path verbatim, then join against the
base path (dropping a leading `./`); empty string when unresolved. -/
def resolve_file_path (env : Env) (path base_path : String) : String :=
  let clean_path := rstripSet path
  let clean_path : String := ⟨urlUnquote clean_path.data⟩
  if env.isFile clean_path then clean_path
  else if base_path ≠ "" then
    let bp := rstripSet base_path
    let relative_path :=
      if startsL clean_path.data "./".data then (⟨clean_path.data.drop 2⟩ : String)
      else clean_path
    let full_path := pathJoin bp relative_path
    if env.isFile full_path then full_path else ""
  else ""

/-! The transcoder (`compress_to_jpeg`, lines 479-555) and the per-image
embed pipeline (`embed_image_data`, lines 663-778). -/

/-- `compress_to_jpeg` (lines 479-555): returns
`(compressed bytes or none, quality used, original size, compressed
size)` plus the codec effects.  The fast path (lines 486-488) returns
tiny images unchanged; the SVG branch rasterizes first; every codec
exception becomes `(none, 0, original_size, 0)`. -/
def compress_to_jpeg (env : Env) (input_data : List Nat) (quality_scale : Nat)
    (url : String) (max_width max_height : Option Nat) :
    Option (List Nat) × Nat × Nat × Nat × List Effect :=
  let original_size := input_data.length
  let jpeg_quality := calculate_jpeg_quality original_size quality_scale
  if jpeg_quality = 100 ∧ original_size ≤ 1024 ∧
      optTruthy max_width = false ∧ optTruthy max_height = false then
    (some input_data, jpeg_quality, original_size, original_size, [])
  else if endsL (toLowerL url.data) ".svg".data then
    if env.svgSupport = false then (none, 0, original_size, 0, [])
    else
      match env.rasterizeSvg input_data with
      | none => (none, 0, original_size, 0, [])
      | some png_data =>
        match env.pilEncode png_data jpeg_quality max_width max_height with
        | none => (none, 0, original_size, 0, [])
        | some out => (some out, jpeg_quality, original_size, out.length, [Effect.encodeJpeg jpeg_quality])
  else
    match env.pilEncode input_data jpeg_quality max_width max_height with
    | none => (none, 0, original_size, 0, [])
    | some out => (some out, jpeg_quality, original_size, out.length, [Effect.encodeJpeg jpeg_quality])

/-- Tail of `embed_image_data` once the bytes are in hand
(lines 734-778): video sniffing, MIME lookup, transcode, the size guard
and the data-URL assembly.  `url` is the resolved source, `log` the I/O
effects already performed. -/
def embedWithData (env : Env) (url : String) (image_data : List Nat)
    (options : CommandLineOptions) (stats : Stats) (log : List Effect) :
    Option String × Stats × List Effect :=
  if is_video_file image_data then (none, addNonEmbedded stats url, log)
  else
    let mime_type := get_mime_type env.guessMime url
    if mime_type = "" then (none, addNonEmbedded stats url, log)
    else
      match compress_to_jpeg env image_data options.quality_scale url
          options.max_width options.max_height with
      | (compressed_data, _jpeg_quality, original_size, compressed_size, clog) =>
        match compressed_data with
        | none => (none, addNonEmbedded stats url, log ++ clog)
        | some cd =>
          if cd.isEmpty then (none, addNonEmbedded stats url, log ++ clog)
          else
            let stats := { stats with
              total_image_size := stats.total_image_size + original_size
              total_compressed_size := stats.total_compressed_size + compressed_size }
            let base64_data := b64encode cd
            let final_size := base64_data.length + MARKDOWN_IMAGE_OVERHEAD
            let max_file_size_bytes := options.max_file_size_mb * 1024 * 1024
            if final_size > max_file_size_bytes then
              (none, addNonEmbedded stats url, log ++ clog)
            else
              (some ("data:" ++ mime_type ++ ";base64," ++ (⟨base64_data⟩ : String)),
               stats, log ++ clog)

/-- `embed_image_data` (lines 663-778): clean the source (strip the
dimension suffix and whitespace), skip data URLs, apply the Yarle
resource-path fixup, resolve local vs remote, fetch the bytes, then hand
over to `embedWithData`.  Returns the data URL, the updated stats and
the I/O effect trace. -/
def embed_image_data (env : Env) (m : ImageMatch) (options : CommandLineOptions)
    (stats : Stats) : Option String × Stats × List Effect :=
  let url := pyStrip (split_on_unescaped_pipe m.url).1
  if is_embedded_image url then (none, stats, [])
  else
    let url :=
      if options.yarle_mode = true ∧ startsHttp url = false ∧
          (containsSub url.data "./_resources/".data ∨
           containsSub url.data ".resources/".data) then
        let resolved_path := resolve_file_path env url options.base_path
        if resolved_path ≠ "" then resolved_path else url
      else url
    if startsHttp url = false then
      let found : Option String :=
        if env.isFile url then some url
        else
          let resolved_path := resolve_file_path env url options.base_path
          if resolved_path ≠ "" then some resolved_path else none
      match found with
      | none => (none, addNonEmbedded stats url, [])
      | some url =>
        match env.readFile url with
        | none => (none, addNonEmbedded stats url, [Effect.readLocal url])
        | some image_data =>
          embedWithData env url image_data options stats [Effect.readLocal url]
    else
      match env.download url with
      | none => (none, addNonEmbedded stats url, [Effect.download url])
      | some image_data =>
        if image_data.isEmpty then (none, addNonEmbedded stats url, [Effect.download url])
        else embedWithData env url image_data options stats [Effect.download url]

/-! The document rewriter (`process_markdown`, lines 971-1098). -/

/-- Canonical dedup key of a match (lines 1010-1014 and 1039-1042):
the reference label when the match is reference-style with a truthy
label, otherwise the raw source text. -/
def canonicalKey (m : ImageMatch) : String × String :=
  match m.ref_id with
  | some r => if m.style = "reference" ∧ r ≠ "" then ("ref", r) else ("url", m.url)
  | none => ("url", m.url)

/-- Lookup in the pass-1 key map (keys are inserted at most once, so
first match equals Python's dict lookup). -/
def assocGet (xs : List ((String × String) × String)) (k : String × String) :
    Option String :=
  match xs with
  | [] => none
  | (k', v) :: rest => if k' = k then some v else assocGet rest k

/-- The accumulating state of pass 1 (lines 1004-1029). -/
structure Pass1State where
  key_to_embedded_id : List ((String × String) × String) := []
  embedded_data_by_id : List (String × String) := []
  img_counter : Nat := 1
  stats : Stats := {}
  log : List Effect := []
deriving Repr, DecidableEq

/-- Pass 1 (lines 1009-1029): iterate matches in document order, skip a
key already in the map, otherwise run `embed_image_data`; a success
records the key and a fresh `mie-img-N` id, a failure only bumps the
skip counter. -/
def processPass1 (env : Env) (options : CommandLineOptions) :
    Pass1State → List ImageMatch → Pass1State
  | st, [] => st
  | st, m :: rest =>
    match assocGet st.key_to_embedded_id (canonicalKey m) with
    | some _ => processPass1 env options st rest
    | none =>
      match embed_image_data env m options st.stats with
      | (none, stats', elog) =>
        processPass1 env options
          { st with
            stats := { stats' with skipped_images := stats'.skipped_images + 1 }
            log := st.log ++ elog } rest
      | (some data_url, stats', elog) =>
        let embedded_id := "mie-img-" ++ toString st.img_counter
        processPass1 env options
          { key_to_embedded_id := st.key_to_embedded_id ++ [(canonicalKey m, embedded_id)]
            embedded_data_by_id := st.embedded_data_by_id ++ [(embedded_id, data_url)]
            img_counter := st.img_counter + 1
            stats := { stats' with images_processed := stats'.images_processed + 1 }
            log := st.log ++ elog } rest

/-- Alt-text rebuild of pass 2 (lines 1050-1058): backslashes are
stripped from the alt proper, `\|` unescaped in the dimension suffix. -/
def renderAltText (alt_text : String) : String :=
  let p := split_on_unescaped_pipe alt_text
  let alt_main : String := ⟨removeBackslashes p.1.data⟩
  let dimensions : String :=
    match p.2 with
    | some d => ⟨replaceEscapedPipe d.data⟩
    | none => ""
  alt_main ++ dimensions

/-- Pass 2 (lines 1031-1065): splice untouched text between spans and
substitute either the original text (unassigned key) or the
`![alt][mie-img-N]` placeholder. -/
def processPass2 (markdown : List Char)
    (keyMap : List ((String × String) × String)) :
    List ImageMatch → Nat → List Char
  | [], last_pos => markdown.drop last_pos
  | m :: rest, last_pos =>
    let pre :=
      if m.position > last_pos then (markdown.drop last_pos).take (m.position - last_pos)
      else []
    let frag :=
      match assocGet keyMap (canonicalKey m) with
      | none => m.original_text.data
      | some embedded_id =>
        ("![" ++ renderAltText m.alt_text ++ "][" ++ embedded_id ++ "]").data
    pre ++ frag ++ processPass2 markdown keyMap rest (m.position + m.length)

/-- The marker comment of the appended definitions block (line 1073). -/
def embeddedBlockMarker : String :=
  "<!-- Embedded image data generated by markdown_image_embedder -->"

/-- `process_markdown` (lines 971-1098): scan, pass 1, pass 2, append
the definitions block when anything was embedded, and fill the summary
statistics.  Returns the rewritten text, the stats and the I/O trace. -/
def process_markdown (env : Env) (markdown : String)
    (options : CommandLineOptions) : String × Stats × List Effect :=
  let original_markdown_size := markdown.data.length
  let links := find_image_links markdown
  let st := processPass1 env options {} links
  let body := processPass2 markdown.data st.key_to_embedded_id links 0
  let body :=
    if st.embedded_data_by_id.isEmpty then body
    else
      rstripPy body ++ "\n\n".data ++ embeddedBlockMarker.data ++ "\n".data ++
        ((st.embedded_data_by_id.map
          (fun p => ("[" ++ p.1 ++ "]: " ++ p.2 ++ "\n").data)).flatten)
  let final_size := body.length
  let stats := { st.stats with
    total_output_size := final_size
    change_bytes := (final_size : Int) - (original_markdown_size : Int)
    input_md_size := original_markdown_size
    output_md_size := final_size }
  (⟨body⟩, stats, st.log)

/-! Concrete collaborator environments used by the scenario theorems. -/

/-- A purely remote environment: no local files, every download returns
`payload`, the codec encodes any bitmap at quality `q` to the one-byte
body `[q]` (so the output records the quality used). -/
def remoteEnv (payload : Option (List Nat)) : Env where
  isFile := fun _ => false
  readFile := fun _ => none
  download := fun _ => payload
  rasterizeSvg := fun _ => none
  pilEncode := fun _ q _ _ => some [q]
  guessMime := fun _ => none
  svgSupport := false

/-- A permissive local environment: every path exists and reads as the
three bytes `[1, 2, 3]` (tiny enough for the no-recompression fast
path). -/
def localEnv : Env where
  isFile := fun _ => true
  readFile := fun _ => some [1, 2, 3]
  download := fun _ => none
  rasterizeSvg := fun _ => none
  pilEncode := fun _ q _ _ => some [q]
  guessMime := fun _ => none
  svgSupport := false

/-- Environment for the size-guard scenario: the 8-byte download is
above nothing, the codec always produces the free `out` bytes (the
compressed image whose base64 footprint the guard inspects). -/
def sizeGuardEnv (out : List Nat) : Env where
  isFile := fun _ => false
  readFile := fun _ => none
  download := fun _ => some [7, 7, 7, 7, 7, 7, 7, 7]
  rasterizeSvg := fun _ => none
  pilEncode := fun _ _ _ _ => some out
  guessMime := fun _ => none
  svgSupport := false

/-- The single inline match of `"![a](http://h/x.png)"`. -/
def remotePngMatch : ImageMatch :=
  { original_text := "![a](http://h/x.png)"
    alt_text := "a"
    url := "http://h/x.png"
    position := 0
    length := 20
    ref_id := none
    style := "inline" }

/-- Options for the size-guard scenario: a free size ceiling, and a max
width so that even a tiny image is not returned unchanged by the
fast path (the codec, hence the size guard, is always reached). -/
def sizeGuardOpts (mb : Nat) : CommandLineOptions :=
  { max_file_size_mb := mb, max_width := some 4096 }

/-- One URL five times: three inline occurrences and two obsidian
occurrences, all with the same raw source text (one canonical key). -/
def dedupDoc : String :=
  "![a](http://h/x.png) ![b](http://h/x.png)\n![[http://h/x.png]]\n![[http://h/x.png]]\n![c](http://h/x.png)"

/-- The same URL once inline and once through a reference definition:
two distinct canonical keys for one logical image. -/
def crossStyleDoc : String := "![a](http://h/x.png)\n![b][r]\n\n[r]: http://h/x.png\n"

/-- The same failing URL twice. -/
def retryDoc : String := "![a](http://h/x.png)\n![b](http://h/x.png)"

/-- A document whose obsidian and inline readings overlap: the scanner
emits both `![[a](u) foo]]` (obsidian) and `![[a](u)` (inline). -/
def overlapDoc : String := "![[a](u) foo]]"

/-- The end-to-end input of the spec's final test. -/
def c6doc : String := "![Example](https://host/x.png)"

/-- The one match the scanner finds in `c6doc`. -/
def c6match : ImageMatch :=
  { original_text := "![Example](https://host/x.png)"
    alt_text := "Example"
    url := "https://host/x.png"
    position := 0
    length := 30
    ref_id := none
    style := "inline" }

/-- The rewritten output for `c6doc` under `remoteEnv`: the placeholder
body plus the definitions block, whose data URL carries the
extension-derived MIME type `image/png` around the JPEG payload. -/
def c6out : String :=
  "![Example][mie-img-1]\n\n<!-- Embedded image data generated by markdown_image_embedder -->\n[mie-img-1]: data:image/png;base64,Mg==\n"

/-- A pass-1 state that has already embedded the key of
`remotePngMatch`. -/
def embeddedKeyState : Pass1State :=
  { key_to_embedded_id := [(("url", "http://h/x.png"), "mie-img-1")]
    embedded_data_by_id := [("mie-img-1", "data:image/png;base64,AQID")]
    img_counter := 2 }

instance : IsTotal ImageMatch (fun a b => a.position ≤ b.position) :=
  ⟨fun a b => Nat.le_total a.position b.position⟩

instance : IsTrans ImageMatch (fun a b => a.position ≤ b.position) :=
  ⟨fun _ _ _ => Nat.le_trans⟩

/-! Helper lemmas shared by the claim theorems. -/

/-- Padded base64 output length: four characters per three input bytes,
rounded up. -/
theorem b64encode_length (l : List Nat) :
    (b64encode l).length = 4 * ((l.length + 2) / 3) := by
  induction l using b64encode.induct <;> simp [b64encode, *] <;> omega

/-- `addNonEmbedded` reads and writes only the non-embedded set, so two
stats records agreeing on that set keep agreeing after an insertion. -/
theorem addNonEmbedded_resources_congr (t s : Stats) (u : String)
    (h : t.non_embedded_resources = s.non_embedded_resources) :
    (addNonEmbedded t u).non_embedded_resources =
      (addNonEmbedded s u).non_embedded_resources := by
  unfold addNonEmbedded
  split <;> split <;> simp_all

set_option maxHeartbeats 2000000 in
/-- Every failing branch of `embedWithData` (video signature, empty MIME
type, codec failure, size-guard trip) records exactly one identifier in
the non-embedded set. -/
theorem embedWithData_failure_adds (env : Env) (url : String) (data : List Nat)
    (options : CommandLineOptions) (stats : Stats) (log : List Effect)
    (hfail : (embedWithData env url data options stats log).1 = none) :
    ∃ u, ((embedWithData env url data options stats log).2.1).non_embedded_resources =
      (addNonEmbedded stats u).non_embedded_resources := by
  simp only [embedWithData] at hfail ⊢
  repeat' split at hfail <;>
    (try simp_all) <;>
    (repeat' split) <;>
    first
    | exact ⟨_, addNonEmbedded_resources_congr _ _ _ (by simp)⟩
    | simp_all

set_option maxHeartbeats 2000000 in
/-- Every failing branch of `embed_image_data` past the already-embedded
check records exactly one identifier in the non-embedded set. -/
theorem embed_image_data_failure_adds (env : Env) (options : CommandLineOptions)
    (stats : Stats) (m : ImageMatch)
    (hnotemb : is_embedded_image (pyStrip (split_on_unescaped_pipe m.url).1) = false)
    (hfail : (embed_image_data env m options stats).1 = none) :
    ∃ u, ((embed_image_data env m options stats).2.1).non_embedded_resources =
      (addNonEmbedded stats u).non_embedded_resources := by
  simp only [embed_image_data, hnotemb, Bool.false_eq_true, if_false] at hfail ⊢
  repeat' split at hfail
  all_goals try simp_all
  all_goals try (repeat' split)
  all_goals try exact ⟨_, addNonEmbedded_resources_congr _ _ _ (by simp)⟩
  all_goals try simp_all
  all_goals exact embedWithData_failure_adds _ _ _ _ _ _ hfail

/-- A run of zero bytes never carries a video signature. -/
theorem is_video_file_replicate_zero (n : Nat) :
    is_video_file (List.replicate n 0) = false := by
  unfold is_video_file
  by_cases h : n < 12
  · simp [List.length_replicate, h]
  · have m4 : min 4 n = 4 := by omega
    have m3 : min 3 n = 3 := by omega
    have m4' : min 4 (n - 4) = 4 := by omega
    have m4'' : min 4 (n - 8) = 4 := by omega
    simp only [List.length_replicate, List.take_replicate, List.drop_replicate,
      m4, m3, m4', m4'']
    simp [h, List.replicate]

set_option maxHeartbeats 2000000 in
/-- The end-to-end run of `c6doc` against `remoteEnv` with a 50 KiB
download: the output is `c6out` and the codec is invoked at JPEG
quality 50 (this run is shared by the C6 theorem and counterexample). -/
theorem c6_run (data : List Nat) (hlen : data.length = 50 * 1024)
    (hvid : is_video_file data = false) :
    (process_markdown (remoteEnv (some data)) c6doc {}).1 = c6out ∧
    (process_markdown (remoteEnv (some data)) c6doc {}).2.2 =
      [Effect.download "https://host/x.png", Effect.encodeJpeg 50] := by
  have hne : data.isEmpty = false := by
    cases data with
    | nil => simp at hlen
    | cons a as => rfl
  have h1 : pyStrip (split_on_unescaped_pipe "https://host/x.png").1 = "https://host/x.png" := by decide
  have h2 : is_embedded_image "https://host/x.png" = false := by decide
  have h3 : startsHttp "https://host/x.png" = true := by decide
  have h5 : get_mime_type (fun _ => none) "https://host/x.png" = "image/png" := by decide
  have h6 : calculate_jpeg_quality (50 * 1024) 5 = 50 := by decide
  have h7 : endsL (toLowerL "https://host/x.png".data) ".svg".data = false := by decide
  have h8 : ¬("image/png" : String) = "" := by decide
  have hb : b64encode [50] = ['M', 'g', '=', '='] := by decide
  have hembed : embed_image_data (remoteEnv (some data)) c6match {} {} =
      (some "data:image/png;base64,Mg==",
       { total_image_size := 50 * 1024, total_compressed_size := 1 },
       [Effect.download "https://host/x.png", Effect.encodeJpeg 50]) := by
    simp [embed_image_data, embedWithData, compress_to_jpeg, remoteEnv, c6match,
      h1, h2, h3, h5, h6, h7, h8, hb, hlen, hvid, hne, optTruthy, MARKDOWN_IMAGE_OVERHEAD]
  have hfind : find_image_links c6doc = [c6match] := by decide
  have ha : assocGet ([] : List ((String × String) × String)) (canonicalKey c6match) = none := rfl
  constructor <;>
    (unfold process_markdown
     rw [hfind]
     simp only [processPass1, ha, hembed]
     decide)

/-! The claim theorems. -/

/-- C1 (corrected): deduplication is per canonical key, not per logical
image.  All references sharing one key — here one URL written three
times inline and twice obsidian-style, five occurrences with the key
`("url", "http://h/x.png")` — produce exactly one definitions-block
entry and exactly one download.  (The counterexample shows that the same
URL reached through the reference syntax carries a different key and is
fetched and embedded a second time.) -/
theorem c1_dedup_per_canonical_key :
    (process_markdown (remoteEnv (some [1, 2, 3])) dedupDoc {}).2.2 =
      [Effect.download "http://h/x.png"] ∧
    (process_markdown (remoteEnv (some [1, 2, 3])) dedupDoc {}).2.1.images_processed = 1 ∧
    (process_markdown (remoteEnv (some [1, 2, 3])) dedupDoc {}).1 =
      "![a][mie-img-1] ![b][mie-img-1]\n![][mie-img-1]\n![][mie-img-1]\n![c][mie-img-1]\n\n<!-- Embedded image data generated by markdown_image_embedder -->\n[mie-img-1]: data:image/png;base64,AQID\n" := by
  decide

/-- C1 counterexample: a document where one image source URL appears
through the inline and the reference syntaxes is downloaded twice and
produces two definitions-block entries, contradicting the claimed single
entry and single fetch per logical image. -/
theorem c1_cross_syntax_two_entries :
    (process_markdown (remoteEnv (some [1, 2, 3])) crossStyleDoc {}).2.2 =
      [Effect.download "http://h/x.png", Effect.download "http://h/x.png"] ∧
    (process_markdown (remoteEnv (some [1, 2, 3])) crossStyleDoc {}).2.1.images_processed = 2 := by
  decide

/-- C2 (corrected): pass 1 skips re-processing only for a key whose
earlier attempt succeeded — a key present in the embed map makes the
step a no-op, with no effects, for every environment and state.  (The
counterexample shows a failed key is retried.) -/
theorem c2_skip_embedded_key (env : Env) (options : CommandLineOptions)
    (st : Pass1State) (m : ImageMatch) (rest : List ImageMatch) (embedded_id : String)
    (h : assocGet st.key_to_embedded_id (canonicalKey m) = some embedded_id) :
    processPass1 env options st (m :: rest) = processPass1 env options st rest := by
  simp [processPass1, h]

/-- C2 witness: the skip at a concrete already-embedded key. -/
theorem c2_skip_embedded_key_witness :
    processPass1 (remoteEnv none) {} embeddedKeyState [remotePngMatch] =
      processPass1 (remoteEnv none) {} embeddedKeyState [] :=
  c2_skip_embedded_key (remoteEnv none) {} embeddedKeyState remotePngMatch []
    "mie-img-1" (by decide)

/-- C2 counterexample: a key whose first attempt failed (download
returns nothing) is re-resolved on its second occurrence — the trace
holds two downloads of the same URL, contradicting "whether that earlier
attempt succeeded or failed ... no second resolve attempt". -/
theorem c2_failed_key_retried :
    (process_markdown (remoteEnv none) retryDoc {}).2.2 =
      [Effect.download "http://h/x.png", Effect.download "http://h/x.png"] ∧
    (process_markdown (remoteEnv none) retryDoc {}).2.1.skipped_images = 2 := by
  decide

set_option maxHeartbeats 2000000 in
/-- C3 (corrected): for a transcoded image of `out.length` bytes the
size guard computes `final_size = 4 * ceil(out.length / 3) + 100` (the
exact padded base64 length plus the overhead constant) and rejects —
returning no data URL and recording the identifier — exactly when that
value exceeds `max_file_size_mb * 1024 * 1024`; because the ceiling is a
multiple of four, this decision coincides extensionally with the spec's
`ceil(4/3 * n) + 100` formula, although the two values differ (see the
counterexample). -/
theorem c3_size_guard (out : List Nat) (mb : Nat) (hout : out ≠ []) :
    ((embed_image_data (sizeGuardEnv out) remotePngMatch (sizeGuardOpts mb) {}).1 = none ↔
      4 * ((out.length + 2) / 3) + MARKDOWN_IMAGE_OVERHEAD > mb * 1024 * 1024) ∧
    (4 * ((out.length + 2) / 3) + MARKDOWN_IMAGE_OVERHEAD > mb * 1024 * 1024 ↔
      (4 * out.length + 2) / 3 + MARKDOWN_IMAGE_OVERHEAD > mb * 1024 * 1024) ∧
    (4 * ((out.length + 2) / 3) + MARKDOWN_IMAGE_OVERHEAD > mb * 1024 * 1024 →
      "http://h/x.png" ∈
        ((embed_image_data (sizeGuardEnv out) remotePngMatch (sizeGuardOpts mb) {}).2.1).non_embedded_resources) := by
  obtain ⟨o, os, rfl⟩ : ∃ o os, out = o :: os := by
    cases out with
    | nil => exact absurd rfl hout
    | cons o os => exact ⟨o, os, rfl⟩
  have hb := b64encode_length (o :: os)
  simp only [List.length_cons] at hb
  have h1 : pyStrip (split_on_unescaped_pipe "http://h/x.png").1 = "http://h/x.png" := by decide
  have h2 : is_embedded_image "http://h/x.png" = false := by decide
  have h3 : startsHttp "http://h/x.png" = true := by decide
  have h4 : is_video_file [7, 7, 7, 7, 7, 7, 7, 7] = false := by decide
  have h5 : get_mime_type (fun _ => none) "http://h/x.png" = "image/png" := by decide
  have h6 : calculate_jpeg_quality 8 5 = 100 := by decide
  have h7 : endsL (toLowerL "http://h/x.png".data) ".svg".data = false := by decide
  have h8 : ¬("image/png" : String) = "" := by decide
  refine ⟨?_, by unfold MARKDOWN_IMAGE_OVERHEAD; omega, ?_⟩ <;>
    by_cases hg : mb * 1024 * 1024 < 4 * ((os.length + 1 + 2) / 3) + 100 <;>
    all_goals (
      simp [embed_image_data, embedWithData, compress_to_jpeg, sizeGuardEnv, sizeGuardOpts,
        remotePngMatch, addNonEmbedded, h1, h2, h3, h4, h5, h6, h7, h8, hg,
        MARKDOWN_IMAGE_OVERHEAD, List.length_cons, hb, optTruthy]
      try omega)

/-- C3 witness: at a one-byte compressed payload and a 10 MB ceiling,
the guard accepts, matching the size formula. -/
theorem c3_size_guard_witness :
    (embed_image_data (sizeGuardEnv [0]) remotePngMatch (sizeGuardOpts 10) {}).1 = none ↔
      4 * (([0].length + 2) / 3) + MARKDOWN_IMAGE_OVERHEAD > 10 * 1024 * 1024 :=
  (c3_size_guard [0] 10 (by decide)).1

/-- C3 counterexample: for a one-byte compressed payload the size guard
computes `len(base64) + 100 = 104`, not the claimed
`ceil(4/3 * 1) + 100 = 102`. -/
theorem c3_final_size_formula_cex :
    (b64encode [0]).length + MARKDOWN_IMAGE_OVERHEAD ≠
      (4 * 1 + 2) / 3 + MARKDOWN_IMAGE_OVERHEAD := by
  decide

/-- C4 (corrected): the rewrite is the identity on every document in
which the scanner discovers no reference — in particular on output whose
reference-style placeholders all resolve to data URLs, which the scanner
excludes.  (The counterexample shows a fully-embedded output can still
contain a newly scannable obsidian pattern and change on a second
run.) -/
theorem c4_idempotent_no_links (env : Env) (options : CommandLineOptions)
    (markdown : String) (h : find_image_links markdown = []) :
    (process_markdown env markdown options).1 = markdown := by
  unfold process_markdown
  simp [h, processPass1, processPass2]

/-- C4 witness: a document holding only an already-embedded data URL is
returned unchanged. -/
theorem c4_idempotent_no_links_witness :
    (process_markdown (remoteEnv none) "![x](data:image/png;base64,AQID)" {}).1 =
      "![x](data:image/png;base64,AQID)" :=
  c4_idempotent_no_links (remoteEnv none) {} "![x](data:image/png;base64,AQID)" (by decide)

/-- C4 counterexample: a run of `overlapDoc` embeds every discovered
reference (no skips, nothing non-embedded), yet running the rewrite on
its own output changes it again: the rewritten text forms a new
obsidian-style pattern around a placeholder, which the second scan
discovers and embeds. -/
theorem c4_rescan_changes_output :
    (process_markdown localEnv overlapDoc {}).2.1.skipped_images = 0 ∧
    (process_markdown localEnv overlapDoc {}).2.1.non_embedded_resources = [] ∧
    (process_markdown localEnv overlapDoc {}).2.1.images_processed = 2 ∧
    (process_markdown localEnv (process_markdown localEnv overlapDoc {}).1 {}).1 ≠
      (process_markdown localEnv overlapDoc {}).1 := by
  decide

/-- C5 (code bug): the quality table's scale direction is inverted with
respect to the claim and to the code's own help text ("lower values =
higher quality"): at a fixed size of 300 KiB the code returns quality 10
at scale 1 and 75 at scale 9, so quality rises as the scale increases
and scale 1 is the most aggressive, not near-lossless. -/
theorem c5_quality_scale_direction :
    calculate_jpeg_quality (300 * 1024) 1 = 10 ∧
    calculate_jpeg_quality (300 * 1024) 9 = 75 ∧
    calculate_jpeg_quality (5 * 1024) 1 = 30 ∧
    calculate_jpeg_quality (5 * 1024) 9 = 98 ∧
    calculate_jpeg_quality (300 * 1024) 1 < calculate_jpeg_quality (300 * 1024) 9 := by
  decide

set_option maxHeartbeats 400000 in
/-- C6 (corrected): on `![Example](https://host/x.png)` with a resolver
returning a 50 KiB decodable payload and scale 5, the pipeline produces
the `![Example][mie-img-1]` placeholder plus the trailing
`[mie-img-1]: data:image/png;base64,...` definition and encodes at the
≤50 KiB / scale-5 table quality of 50 — the data URL's MIME type comes
from the URL's extension (`image/png`), not `image/jpeg` as claimed
(see the counterexample). -/
theorem c6_end_to_end (data : List Nat) (hlen : data.length = 50 * 1024)
    (hvid : is_video_file data = false) :
    (process_markdown (remoteEnv (some data)) c6doc {}).1 = c6out ∧
    (process_markdown (remoteEnv (some data)) c6doc {}).2.2 =
      [Effect.download "https://host/x.png", Effect.encodeJpeg 50] :=
  c6_run data hlen hvid

/-- C6 witness: the run at a concrete 50 KiB payload. -/
theorem c6_end_to_end_witness :
    (process_markdown (remoteEnv (some (List.replicate (50 * 1024) 0))) c6doc {}).1 = c6out :=
  (c6_end_to_end (List.replicate (50 * 1024) 0) (List.length_replicate (50 * 1024) 0)
    (is_video_file_replicate_zero (50 * 1024))).1

/-- C6 counterexample: the definitions block of that run carries
`data:image/png`, and the string `image/jpeg` appears nowhere in the
output, contradicting the claimed `data:image/jpeg;base64,...` line. -/
theorem c6_mime_is_png_not_jpeg :
    containsSub
      (process_markdown (remoteEnv (some (List.replicate (50 * 1024) 0))) c6doc {}).1.data
      "image/jpeg".data = false ∧
    containsSub
      (process_markdown (remoteEnv (some (List.replicate (50 * 1024) 0))) c6doc {}).1.data
      "data:image/png;base64,".data = true := by
  have h := (c6_run (List.replicate (50 * 1024) 0) (List.length_replicate (50 * 1024) 0)
    (is_video_file_replicate_zero (50 * 1024))).1
  rw [h]
  decide

/-- C7 (corrected): the scanner's output is sorted by position, but it
is not de-overlapped — the sort is all `find_image_links` does to the
merged match lists (the counterexample exhibits two overlapping
spans). -/
theorem c7_sorted_by_position (markdown : String) :
    List.Pairwise (fun a b => a.position ≤ b.position) (find_image_links markdown) := by
  unfold find_image_links
  exact List.sorted_insertionSort _ _

/-- C7 counterexample: on `![[a](u)]]` the scanner returns an obsidian
match and an inline match that overlap, refuting the claimed
de-overlapping invariant `position + length ≤ next position`. -/
theorem c7_overlapping_spans :
    ¬ List.Pairwise (fun a b : ImageMatch => a.position + a.length ≤ b.position)
      (find_image_links "![[a](u)]]") := by
  decide

/-- C8 (confirmed): the anchor values of the quality table hold —
`quality(1024, s) = 100` for every scale in 1..9, `quality(300 KiB, 1) =
10`, `quality(300 KiB, 9) = 75` — and the seven bands have inclusive
upper bounds: each bound still belongs to its band (same value as the
rest of the band) while one byte more falls into the next band (a
different value, every column of the table being strictly decreasing). -/
theorem c8_quality_anchors (s : Nat) (h1 : 1 ≤ s) (h2 : s ≤ 9) :
    calculate_jpeg_quality 1024 s = 100 ∧
    calculate_jpeg_quality (300 * 1024) 1 = 10 ∧
    calculate_jpeg_quality (300 * 1024) 9 = 75 ∧
    calculate_jpeg_quality (1 * 1024 + 1) s ≠ calculate_jpeg_quality (1 * 1024) s ∧
    calculate_jpeg_quality (5 * 1024) s = calculate_jpeg_quality (1 * 1024 + 1) s ∧
    calculate_jpeg_quality (5 * 1024 + 1) s ≠ calculate_jpeg_quality (5 * 1024) s ∧
    calculate_jpeg_quality (20 * 1024) s = calculate_jpeg_quality (5 * 1024 + 1) s ∧
    calculate_jpeg_quality (20 * 1024 + 1) s ≠ calculate_jpeg_quality (20 * 1024) s ∧
    calculate_jpeg_quality (50 * 1024) s = calculate_jpeg_quality (20 * 1024 + 1) s ∧
    calculate_jpeg_quality (50 * 1024 + 1) s ≠ calculate_jpeg_quality (50 * 1024) s ∧
    calculate_jpeg_quality (100 * 1024) s = calculate_jpeg_quality (50 * 1024 + 1) s ∧
    calculate_jpeg_quality (100 * 1024 + 1) s ≠ calculate_jpeg_quality (100 * 1024) s ∧
    calculate_jpeg_quality (200 * 1024) s = calculate_jpeg_quality (100 * 1024 + 1) s ∧
    calculate_jpeg_quality (200 * 1024 + 1) s ≠ calculate_jpeg_quality (200 * 1024) s := by
  interval_cases s <;> decide

/-- C8 witness: the 1 KiB anchor at scale 5. -/
theorem c8_quality_anchors_witness : calculate_jpeg_quality 1024 5 = 100 :=
  (c8_quality_anchors 5 (by decide) (by decide)).1

/-- C9 (confirmed): a reference whose processing fails non-fatally past
the already-embedded check (unresolvable source, failed download, video
signature, codec failure or size-guard rejection — every path on which
`embed_image_data` returns no data URL) records exactly one identifier
in the non-embedded set; pass 1 carries on with the remaining references
(the step reduces to processing the tail from the bumped state); and
pass 2 reproduces the reference's original matched text byte-for-byte
when its key has no assignment.  No failure escapes: the pipeline is a
total function. -/
theorem c9_nonfatal_failure
    (env : Env) (options : CommandLineOptions) (st : Pass1State)
    (m : ImageMatch) (rest rest2 : List ImageMatch)
    (doc : List Char) (keyMap : List ((String × String) × String)) (last_pos : Nat)
    (hnotemb : is_embedded_image (pyStrip (split_on_unescaped_pipe m.url).1) = false)
    (hfail : (embed_image_data env m options st.stats).1 = none)
    (hnew : assocGet st.key_to_embedded_id (canonicalKey m) = none)
    (hun : assocGet keyMap (canonicalKey m) = none) :
    (∃ u, ((embed_image_data env m options st.stats).2.1).non_embedded_resources =
        (addNonEmbedded st.stats u).non_embedded_resources) ∧
    processPass1 env options st (m :: rest) =
      processPass1 env options
        { st with
          stats := { (embed_image_data env m options st.stats).2.1 with
            skipped_images :=
              ((embed_image_data env m options st.stats).2.1).skipped_images + 1 }
          log := st.log ++ (embed_image_data env m options st.stats).2.2 } rest ∧
    processPass2 doc keyMap (m :: rest2) last_pos =
      (if m.position > last_pos then (doc.drop last_pos).take (m.position - last_pos)
        else []) ++ m.original_text.data ++
        processPass2 doc keyMap rest2 (m.position + m.length) := by
  refine ⟨embed_image_data_failure_adds env options st.stats m hnotemb hfail, ?_, ?_⟩
  · rcases he : embed_image_data env m options st.stats with ⟨res, stats', elog⟩
    rw [he] at hfail
    simp only at hfail
    subst hfail
    simp [processPass1, hnew, he]
  · simp [processPass2, hun]

/-- C9 witness: the failed-download case at a concrete match. -/
theorem c9_nonfatal_failure_witness :
    ∃ u, ((embed_image_data (remoteEnv none) remotePngMatch {}
        ({} : Pass1State).stats).2.1).non_embedded_resources =
      (addNonEmbedded ({} : Pass1State).stats u).non_embedded_resources :=
  (c9_nonfatal_failure (remoteEnv none) {} {} remotePngMatch [] [] [] [] 0
    (by decide) (by decide) rfl rfl).1

set_option maxHeartbeats 1000000 in
/-- C10 (confirmed): `get_mime_type` always returns a non-empty string
with the `image/` prefix, defaulting to `image/jpeg` when the URL has no
extension, for every guess collaborator — hence the "Unsupported file
type" branch of `embed_image_data`, guarded by the MIME type being
empty, is unreachable. -/
theorem c10_mime_type_image_prefix (guess : String → Option String) (url : String) :
    get_mime_type guess url ≠ "" ∧
    startsL (get_mime_type guess url).data "image/".data = true ∧
    (splitext_ext url = "" → get_mime_type guess url = "image/jpeg") := by
  refine ⟨?_, ?_, ?_⟩
  · simp only [get_mime_type]
    rcases hg : guess url with _ | mt <;> dsimp only <;> split_ifs <;> first | decide | tauto
  · simp only [get_mime_type]
    rcases hg : guess url with _ | mt <;> dsimp only <;> split_ifs <;> first | decide | tauto
  · intro hext
    simp only [get_mime_type]
    rcases hg : guess url with _ | mt <;> dsimp only <;> split_ifs <;> first | decide | tauto

end MIE
